import Mathlib

/-!
Verification development for the MCP coffee server (Go):
a shallow embedding of the JSON-RPC envelope model, the dispatcher
(internal/server/server.go), the coffee capability handlers
(pkg/handlers/coffee.go), the stdio transport (pkg/transport/stdio.go)
and the HTTP/SSE transport (pkg/transport/http.go), together with
theorems settling the specification claims.

Conventions of the embedding:
* Decoded JSON values (`encoding/json` into `any`) are modelled by `Json`.
  Numbers are modelled as integers (every numeric literal the claims touch
  is integral); Go objects (`map[string]any`) are association lists where a
  later binding for the same key wins, matching Go map construction.
* A raw input text is modelled by its parse outcome `Option Json`:
  `none` stands for text that is not syntactically valid JSON.
* Context, logging and real time are outside the model; functions that in Go
  take a `context.Context` that is never cancelled on the modelled paths are
  embedded as pure functions.
-/

namespace MCPServer

/-- Decoded JSON value, the model of Go `any` after `json.Unmarshal`. -/
inductive Json where
  | null
  | bool (b : Bool)
  | num (n : Int)
  | str (s : String)
  | arr (xs : List Json)
  | obj (kvs : List (String × Json))

/-- Key lookup in a decoded JSON object.  Go builds a `map[string]any` by
inserting bindings in order, so a later duplicate key overwrites an earlier
one; the fold mirrors that. -/
def lookupKey (kvs : List (String × Json)) (key : String) : Option Json :=
  kvs.foldl (fun acc kv => if kv.1 = key then some kv.2 else acc) none

/-- Whether a JSON value is `null`. -/
def Json.isNull : Json → Bool
  | .null => true
  | _ => false

/-- Whether a JSON value is an object (a Go `map[string]any`). -/
def Json.isObj : Json → Bool
  | .obj _ => true
  | _ => false

/-- Whether a JSON value is a string. -/
def Json.isStr : Json → Bool
  | .str _ => true
  | _ => false

/-- Test `beginsWith hay needle`: the character list `needle` is an initial
segment of `hay`. -/
def beginsWith : List Char → List Char → Bool
  | _, [] => true
  | [], _ :: _ => false
  | c :: cs, d :: ds => c = d && beginsWith cs ds

/-- Substring test on character lists. -/
def containsChars (hay needle : List Char) : Bool :=
  beginsWith hay needle ||
    match hay with
    | [] => false
    | _ :: hs => containsChars hs needle

/-- Model of Go `strings.Contains`. -/
def strContains (s t : String) : Bool :=
  containsChars s.data t.data

/-- Accumulate a decimal digit string; `none` on any non-digit. -/
def digitsVal (cs : List Char) : Option Nat :=
  cs.foldl
    (fun acc c =>
      match acc with
      | none => none
      | some n => if c.isDigit then some (n * 10 + (c.toNat - 48)) else none)
    (some 0)

/-- Model of Go `strconv.Atoi`: optional sign then one or more decimal
digits, nothing else.  (Machine-int overflow is not modelled; every value the
claims exercise is small.) -/
def atoi (s : String) : Option Int :=
  match s.data with
  | [] => none
  | '+' :: rest =>
      if rest.isEmpty then none else (digitsVal rest).map Int.ofNat
  | '-' :: rest =>
      if rest.isEmpty then none else (digitsVal rest).map (fun n => -(n : Int))
  | cs => (digitsVal cs).map Int.ofNat

/-- JSON string escaping as Go `encoding/json` performs it on the strings in
this code base (quote, backslash and ASCII control characters; none of the
server's strings contain the HTML-escaped characters). -/
def escapeChar (c : Char) : String :=
  if c = '"' then "\\\""
  else if c = '\\' then "\\\\"
  else if c = '\n' then "\\n"
  else if c = '\t' then "\\t"
  else if c = '\r' then "\\r"
  else String.singleton c

def escapeString (s : String) : String :=
  String.join (s.data.map escapeChar)

mutual
/-- Serialization of a decoded JSON value, the model of `json.Marshal`
(object fields in the order the encoder emits them). -/
def Json.render : Json → String
  | .null => "null"
  | .bool true => "true"
  | .bool false => "false"
  | .num n => toString n
  | .str s => "\"" ++ escapeString s ++ "\""
  | .arr xs => "[" ++ Json.renderArr xs ++ "]"
  | .obj kvs => "\x7b" ++ Json.renderObj kvs ++ "\x7d"

def Json.renderArr : List Json → String
  | [] => ""
  | [x] => x.render
  | x :: y :: rest => x.render ++ "," ++ Json.renderArr (y :: rest)

def Json.renderObj : List (String × Json) → String
  | [] => ""
  | [(k, v)] => "\"" ++ escapeString k ++ "\":" ++ v.render
  | (k, v) :: y :: rest =>
      "\"" ++ escapeString k ++ "\":" ++ v.render ++ "," ++ Json.renderObj (y :: rest)
end

/-! ## Envelope and error model (pkg/mcp/types.go) -/

def JSONRPCVersion : String := "2.0"
def ProtocolVersion : String := "2025-03-26"

def ErrorCodeParseError : Int := -32700
def ErrorCodeInvalidRequest : Int := -32600
def ErrorCodeMethodNotFound : Int := -32601
def ErrorCodeInvalidParams : Int := -32602
def ErrorCodeInternalError : Int := -32603

/-- Model of `mcp.Request`.  The Go fields `ID any` and `Params any` hold Go `nil`
both when the JSON field is absent and when it is JSON `null`; `none` models
that shared `nil` state. -/
structure Request where
  jsonrpc : String
  method : String
  id : Option Json
  params : Option Json

/-- Model of `mcp.ErrorResponse`. -/
structure ErrorResponse where
  code : Int
  message : String
  data : Option Json

/-- Model of `mcp.Response`.  `result` and `error` are `omitempty` in the wire form. -/
structure Response where
  jsonrpc : String
  id : Option Json
  result : Option Json
  error : Option ErrorResponse

/-- String-field extraction of Go struct unmarshalling: absent or `null`
yields the zero value, a string yields itself, any other shape is a decode
error. -/
def getStringField (kvs : List (String × Json)) (key : String) : Option String :=
  match lookupKey kvs key with
  | none => some ""
  | some .null => some ""
  | some (.str s) => some s
  | some _ => none

/-- Go `any`-field extraction of Go struct unmarshalling: JSON `null` and an
absent field both leave the Go field `nil`. -/
def getAnyField (kvs : List (String × Json)) (key : String) : Option Json :=
  match lookupKey kvs key with
  | none => none
  | some .null => none
  | some v => some v

/-- Decoding a JSON value into `mcp.Request` (`json.Unmarshal` into the
struct): the top level must be an object (or `null`, which leaves the zero
value); `jsonrpc` and `method` must be strings when present; `id` and
`params` accept any value. -/
def decodeRequest : Json → Option Request
  | .null => some ⟨"", "", none, none⟩
  | .obj kvs => do
      let jr ← getStringField kvs "jsonrpc"
      let m ← getStringField kvs "method"
      pure ⟨jr, m, getAnyField kvs "id", getAnyField kvs "params"⟩
  | _ => none

def ErrorResponse.toJson (e : ErrorResponse) : Json :=
  .obj ([("code", .num e.code), ("message", .str e.message)] ++
    (match e.data with
     | some d => [("data", d)]
     | none => []))

/-- Wire form of a response: field order `jsonrpc`, `id`, `result`, `error`;
`id` always present (`null` for a nil id), `result`/`error` omitted when
empty. -/
def Response.toJson (r : Response) : Json :=
  .obj ([("jsonrpc", .str r.jsonrpc), ("id", r.id.getD .null)] ++
    (match r.result with
     | some j => [("result", j)]
     | none => []) ++
    (match r.error with
     | some e => [("error", e.toJson)]
     | none => []))

def Response.render (r : Response) : String :=
  r.toJson.render

/-! ## Capability types (pkg/mcp/tool.go, resource.go, prompt.go) -/

structure InputSchema where
  type : String
  properties : List (String × Json)
  required : List String

structure Tool where
  name : String
  description : String
  inputSchema : InputSchema

structure ToolCallParams where
  name : String
  arguments : List (String × Json)

structure ContentItem where
  type : String
  text : String

structure ToolResponse where
  content : List ContentItem

structure Resource where
  uri : String
  name : String

structure ResourceContent where
  uri : String
  text : String

structure ResourceResponse where
  contents : List ResourceContent

structure ResourceParams where
  uri : String

structure PromptArgument where
  name : String
  description : String
  required : Bool

structure Prompt where
  name : String
  description : String
  arguments : List PromptArgument

structure PromptParams where
  name : String
  arguments : List (String × Json)

structure MessageContent where
  type : String
  text : String

structure PromptMessage where
  role : String
  content : MessageContent

structure PromptResponse where
  messages : List PromptMessage

def InputSchema.toJson (s : InputSchema) : Json :=
  .obj ([("type", .str s.type)] ++
    (if s.properties.isEmpty then [] else [("properties", .obj s.properties)]) ++
    (if s.required.isEmpty then []
     else [("required", .arr (s.required.map Json.str))]))

def Tool.toJson (t : Tool) : Json :=
  .obj [("name", .str t.name), ("description", .str t.description),
        ("inputSchema", t.inputSchema.toJson)]

def ContentItem.toJson (c : ContentItem) : Json :=
  .obj [("type", .str c.type), ("text", .str c.text)]

def ToolResponse.toJson (r : ToolResponse) : Json :=
  .obj [("content", .arr (r.content.map ContentItem.toJson))]

def Resource.toJson (r : Resource) : Json :=
  .obj [("uri", .str r.uri), ("name", .str r.name)]

def ResourceContent.toJson (c : ResourceContent) : Json :=
  .obj [("uri", .str c.uri), ("text", .str c.text)]

def ResourceResponse.toJson (r : ResourceResponse) : Json :=
  .obj [("contents", .arr (r.contents.map ResourceContent.toJson))]

def PromptArgument.toJson (a : PromptArgument) : Json :=
  .obj ([("name", .str a.name), ("description", .str a.description)] ++
    (if a.required then [("required", .bool true)] else []))

def Prompt.toJson (p : Prompt) : Json :=
  .obj ([("name", .str p.name), ("description", .str p.description)] ++
    (if p.arguments.isEmpty then []
     else [("arguments", .arr (p.arguments.map PromptArgument.toJson))]))

def MessageContent.toJson (c : MessageContent) : Json :=
  .obj [("type", .str c.type), ("text", .str c.text)]

def PromptMessage.toJson (m : PromptMessage) : Json :=
  .obj [("role", .str m.role), ("content", m.content.toJson)]

def PromptResponse.toJson (r : PromptResponse) : Json :=
  .obj [("messages", .arr (r.messages.map PromptMessage.toJson))]

/-! ## Dispatcher (internal/server/server.go)

The Go `Server` holds one handler per capability interface; none of the
handler calls on the modelled paths read the cancellation context, so each
capability operation is embedded as a value or a pure function returning
`Except String` for Go's `(T, error)`. -/

structure Handlers where
  listTools : Except String (List Tool)
  callTool : ToolCallParams → Except String ToolResponse
  listResources : Except String (List Resource)
  readResource : ResourceParams → Except String ResourceResponse
  listPrompts : Except String (List Prompt)
  getPrompt : PromptParams → Except String PromptResponse

/-- Model of `Server.sendResponse`: success envelope through the sender. -/
def mkResponse (id : Option Json) (result : Json) : Response :=
  ⟨JSONRPCVersion, id, some result, none⟩

/-- Model of `Server.sendError`: error envelope through the sender. -/
def mkError (id : Option Json) (code : Int) (message : String)
    (data : Option Json) : Response :=
  ⟨JSONRPCVersion, id, none, some ⟨code, message, data⟩⟩

/-- Model of `Server.parseToolCallParams`. -/
def parseToolCallParams : Option Json → Except String ToolCallParams
  | none => .error "params cannot be nil"
  | some (.obj kvs) =>
      match lookupKey kvs "name" with
      | some (.str n) =>
          let args :=
            match lookupKey kvs "arguments" with
            | some (.obj a) => a
            | _ => []
          .ok ⟨n, args⟩
      | _ => .error "name parameter is required and must be a string"
  | some _ => .error "params must be an object"

/-- Model of `Server.parseResourceParams`. -/
def parseResourceParams : Option Json → Except String ResourceParams
  | none => .error "params cannot be nil"
  | some (.obj kvs) =>
      match lookupKey kvs "uri" with
      | some (.str u) => .ok ⟨u⟩
      | _ => .error "uri parameter is required and must be a string"
  | some _ => .error "params must be an object"

/-- Model of `Server.parsePromptParams`. -/
def parsePromptParams : Option Json → Except String PromptParams
  | none => .error "params cannot be nil"
  | some (.obj kvs) =>
      match lookupKey kvs "name" with
      | some (.str n) =>
          let args :=
            match lookupKey kvs "arguments" with
            | some (.obj a) => a
            | _ => []
          .ok ⟨n, args⟩
      | _ => .error "name parameter is required and must be a string"
  | some _ => .error "params must be an object"

/-- The `Server.Initialize` result (protocol version, capability flags, server
identity from the default configuration); Go marshals the capability map
with sorted keys. -/
def initResult : Json :=
  .obj [("protocolVersion", .str ProtocolVersion),
        ("capabilities", .obj
          [("prompts", .obj [("listChanged", .bool true)]),
           ("resources", .obj [("listChanged", .bool true)]),
           ("tools", .obj [("listChanged", .bool true)])]),
        ("serverInfo", .obj
          [("name", .str "Coffee Shop Server"), ("version", .str "1.0.0")])]

/-- Model of `Server.HandleRequest`: method routing and envelope construction.  Every
branch delivers exactly one envelope through the context's sender; the
envelope is the function's value. -/
def handleRequest (h : Handlers) (req : Request) : Response :=
  match req.method with
  | "initialize" => mkResponse req.id initResult
  | "tools/list" =>
      match h.listTools with
      | .error e =>
          mkError req.id ErrorCodeInternalError "Failed to list tools"
            (some (.str e))
      | .ok tools =>
          mkResponse req.id (.obj [("tools", .arr (tools.map Tool.toJson))])
  | "tools/call" =>
      match parseToolCallParams req.params with
      | .error e =>
          mkError req.id ErrorCodeInvalidParams "Invalid tool call parameters"
            (some (.str e))
      | .ok p =>
          match h.callTool p with
          | .error e =>
              mkError req.id ErrorCodeInvalidParams ("Tool call failed: " ++ e)
                none
          | .ok r => mkResponse req.id r.toJson
  | "resources/list" =>
      match h.listResources with
      | .error e =>
          mkError req.id ErrorCodeInternalError "Failed to list resources"
            (some (.str e))
      | .ok rs =>
          mkResponse req.id
            (.obj [("resources", .arr (rs.map Resource.toJson))])
  | "resources/read" =>
      match parseResourceParams req.params with
      | .error e =>
          mkError req.id ErrorCodeInvalidParams
            "Invalid resource read parameters" (some (.str e))
      | .ok p =>
          match h.readResource p with
          | .error e =>
              mkError req.id ErrorCodeInvalidParams
                ("Resource read failed: " ++ e) none
          | .ok r => mkResponse req.id r.toJson
  | "prompts/list" =>
      match h.listPrompts with
      | .error e =>
          mkError req.id ErrorCodeInternalError "Failed to list prompts"
            (some (.str e))
      | .ok ps =>
          mkResponse req.id (.obj [("prompts", .arr (ps.map Prompt.toJson))])
  | "prompts/get" =>
      match parsePromptParams req.params with
      | .error e =>
          mkError req.id ErrorCodeInvalidParams "Invalid prompt parameters"
            (some (.str e))
      | .ok p =>
          match h.getPrompt p with
          | .error e =>
              mkError req.id ErrorCodeInvalidParams
                ("Prompt call failed: " ++ e) none
          | .ok r => mkResponse req.id r.toJson
  | "ping" => mkResponse req.id (.obj [])
  | m =>
      mkError req.id ErrorCodeMethodNotFound ("Method " ++ m ++ " not found")
        none

/-! ## Coffee capability handlers (pkg/handlers/coffee.go) -/

structure Drink where
  name : String
  price : Int
  description : String

def Drink.toJson (d : Drink) : Json :=
  .obj [("name", .str d.name), ("price", .num d.price),
        ("description", .str d.description)]

/-- The `NewCoffee` fixed drink list. -/
def coffeeDrinks : List Drink :=
  [⟨"Latte", 5,
    "A latte is a coffee drink made with espresso and steamed milk."⟩,
   ⟨"Mocha", 6,
    "A mocha is a coffee drink made with espresso and chocolate."⟩,
   ⟨"Flat White", 7,
    "A flat white is a coffee drink made with espresso and steamed milk."⟩]

/-- The `Coffee.ListTools` result. -/
def coffeeTools : List Tool :=
  [⟨"getDrinkNames", "Get the names of the drinks in the shop",
    ⟨"object", [], []⟩⟩,
   ⟨"getDrinkInfo", "Get more info about the drink",
    ⟨"object", [("name", .obj [("type", .str "string")])], ["name"]⟩⟩]

/-- Model of `Coffee.getDrinkNames` (uncancelled context): one "text" content item
holding the marshalled name list. -/
def getDrinkNames : ToolResponse :=
  ⟨[⟨"text",
     Json.render (.obj [("names",
       .arr (coffeeDrinks.map (fun d => Json.str d.name)))])⟩]⟩

/-- Model of `Coffee.getDrinkInfo` (uncancelled context). -/
def getDrinkInfo (args : List (String × Json)) : Except String ToolResponse :=
  match lookupKey args "name" with
  | some (.str name) =>
      match coffeeDrinks.find? (fun d => d.name = name) with
      | some d => .ok ⟨[⟨"text", Json.render d.toJson⟩]⟩
      | none => .error ("drink not found: " ++ name)
  | _ => .error "invalid name parameter: expected string"

/-- Model of `Coffee.CallTool`. -/
def coffeeCallTool (p : ToolCallParams) : Except String ToolResponse :=
  match p.name with
  | "getDrinkNames" => .ok getDrinkNames
  | "getDrinkInfo" => getDrinkInfo p.arguments
  | n => .error ("tool " ++ n ++ " not found")

/-- The `Coffee.ListResources` result. -/
def coffeeResources : List Resource :=
  [⟨"menu://app", "menu"⟩]

/-- Model of `Coffee.getMenuResource`. -/
def getMenuResource : ResourceResponse :=
  ⟨[⟨"menu://app", Json.render (.arr (coffeeDrinks.map Drink.toJson))⟩]⟩

/-- Model of `Coffee.ReadResource`. -/
def coffeeReadResource (p : ResourceParams) : Except String ResourceResponse :=
  if p.uri = "menu://app" then .ok getMenuResource
  else .error ("resource not found: " ++ p.uri)

/-- The `Coffee.ListPrompts` result. -/
def coffeePrompts : List Prompt :=
  [⟨"drinkRecommendation",
    "Get personalized drink recommendations based on budget and preferences",
    [⟨"budget", "Customer's budget in dollars", false⟩,
     ⟨"preference",
      "Customer's taste preference (e.g., 'sweet', 'strong', 'mild')",
      false⟩]⟩,
   ⟨"drinkDescription",
    "Get a detailed description and information about a specific coffee drink",
    [⟨"drink_name", "The name of the drink to describe", true⟩]⟩]

/-- Insertion into a key-sorted list of already formatted map entries, for
Go's sorted map formatting. -/
def insertSorted (kv : String × String) :
    List (String × String) → List (String × String)
  | [] => [kv]
  | x :: xs =>
      if kv.1 ≤ x.1 then kv :: x :: xs else x :: insertSorted kv xs

def sortByKey (kvs : List (String × String)) : List (String × String) :=
  kvs.foldr insertSorted []

def joinMapEntries : List (String × String) → String
  | [] => ""
  | [(k, v)] => k ++ ":" ++ v
  | (k, v) :: y :: rest => k ++ ":" ++ v ++ " " ++ joinMapEntries (y :: rest)

mutual
/-- Model of `fmt.Sprintf("%v", v)` on a decoded JSON value: strings print
bare, numbers (integral in this model) and booleans print canonically, Go
`nil` prints `<nil>`, slices print space-separated in brackets and maps
print `map[k:v ...]` sorted by key. -/
def goFormat : Json → String
  | .null => "<nil>"
  | .bool true => "true"
  | .bool false => "false"
  | .num n => toString n
  | .str s => s
  | .arr xs => "[" ++ goFormatList xs ++ "]"
  | .obj kvs => "map[" ++ joinMapEntries (sortByKey (goFormatMap kvs)) ++ "]"

def goFormatList : List Json → String
  | [] => ""
  | [x] => goFormat x
  | x :: y :: rest => goFormat x ++ " " ++ goFormatList (y :: rest)

def goFormatMap : List (String × Json) → List (String × String)
  | [] => []
  | (k, v) :: rest => (k, goFormat v) :: goFormatMap rest
end

/-- Model of `Coffee.createDrinkRecommendationPrompt`: the format string places the
preference clause before the budget clause. -/
def createDrinkRecommendationPrompt (args : List (String × Json)) :
    PromptResponse :=
  let budgetText :=
    match lookupKey args "budget" with
    | some v => " with a budget of $" ++ goFormat v
    | none => ""
  let preferenceText :=
    match lookupKey args "preference" with
    | some v => " who prefers " ++ goFormat v ++ " drinks"
    | none => ""
  let promptText :=
    "You are a coffee expert at a specialty coffee shop. A customer" ++
    preferenceText ++ budgetText ++
    " is asking for drink recommendations.\n\nAvailable drinks:\n- Latte ($5): A latte is a coffee drink made with espresso and steamed milk.\n- Mocha ($6): A mocha is a coffee drink made with espresso and chocolate.\n- Flat White ($7): A flat white is a coffee drink made with espresso and steamed milk.\n\nPlease recommend the best drink(s) for this customer and explain why."
  ⟨[⟨"user", ⟨"text", promptText⟩⟩]⟩

/-- The text of the drink-description prompt for a given subject. -/
def drinkDescriptionText (subject : String) : String :=
  "You are a coffee expert. Please provide a detailed description of a " ++
  subject ++
  ", including:\n\n1. The ingredients and preparation method\n2. The flavor profile and tasting notes\n3. The history or origin of this drink\n4. Tips for enjoying it\n\nBe engaging and informative in your response."

/-- Model of `Coffee.createDrinkDescriptionPrompt`: a missing or non-string
`drink_name` falls back to the subject "coffee". -/
def createDrinkDescriptionPrompt (args : List (String × Json)) :
    PromptResponse :=
  let drinkName :=
    match lookupKey args "drink_name" with
    | some (.str s) => s
    | _ => "coffee"
  ⟨[⟨"user", ⟨"text", drinkDescriptionText drinkName⟩⟩]⟩

/-- Model of `Coffee.GetPrompt`. -/
def coffeeGetPrompt (p : PromptParams) : Except String PromptResponse :=
  match p.name with
  | "drinkRecommendation" => .ok (createDrinkRecommendationPrompt p.arguments)
  | "drinkDescription" => .ok (createDrinkDescriptionPrompt p.arguments)
  | n => .error ("prompt " ++ n ++ " not found")

/-- The handler wiring of `cmd/mcpserver`: one `Coffee` value serves all
three capability interfaces. -/
def coffeeHandlers : Handlers :=
  ⟨.ok coffeeTools, coffeeCallTool, .ok coffeeResources, coffeeReadResource,
   .ok coffeePrompts, coffeeGetPrompt⟩

/-! ## Stdio transport (pkg/transport/stdio.go)

A non-blank input line is modelled by its parse outcome: `none` when the
text is not valid JSON, `some j` when it parses to the value `j`.
`unmarshalErr` stands for the opaque text of the Go decode error that
`sendParseError` copies into the error's `data` field. -/

/-- The `Stdio.sendParseError` id recovery: re-parse the raw line as a generic
object and use its non-null `id` value, else fall back to `-1`.
(Unmarshalling into `map[string]any` succeeds only for an object or `null`,
and `null` leaves the map empty.) -/
def recoverErrorId (line : Option Json) : Json :=
  match line with
  | some (.obj kvs) =>
      match lookupKey kvs "id" with
      | some v => if v.isNull then .num (-1) else v
      | none => .num (-1)
  | _ => .num (-1)

/-- Model of `Stdio.sendParseError`: the best-effort ParseError envelope written for
a line that does not decode into a `Request`. -/
def sendParseError (line : Option Json) (unmarshalErr : String) : Response :=
  ⟨JSONRPCVersion, some (recoverErrorId line), none,
   some ⟨ErrorCodeParseError, "Parse error", some (.str unmarshalErr)⟩⟩

/-- Model of `Stdio.handleMessage`: the list of JSON-RPC responses the transport
writes to stdout for one non-blank line.  A decode failure yields the
ParseError envelope; a version mismatch and a notification are dropped with
no output; otherwise the dispatcher's single envelope is written through the
stdout sender. -/
def stdioHandleMessage (h : Handlers) (line : Option Json)
    (unmarshalErr : String) : List Response :=
  match line.bind decodeRequest with
  | none => [sendParseError line unmarshalErr]
  | some req =>
      if req.jsonrpc ≠ JSONRPCVersion then []
      else
        match req.id with
        | none => []
        | some _ => [handleRequest h req]

/-! ## HTTP/SSE transport (pkg/transport/http.go) -/

/-- The `SSESession` state: the monotone event counter and the closed flag.
(The session id, writer and flusher do not influence the modelled
behaviour; the per-session lock serializes the operations modelled here as
atomic steps.) -/
structure SSESession where
  eventID : Int
  closed : Bool

/-- One framed SSE event as it appears on the wire. -/
structure SSEEvent where
  id : Int
  eventType : String
  data : Json

/-- Outcome of `SSESession.sendEvent`: the events written (none or one), the
error result, and the successor session state. -/
structure SendResult where
  events : List SSEEvent
  err : Option String
  state : SSESession

/-- Model of `SSESession.sendEvent`: rejected with no write and unchanged state once
the session is closed; otherwise writes one event carrying the current
counter and increments the counter.  The empty `eventType` stands for Go's
`""`, an unnamed event. -/
def sendEvent (s : SSESession) (eventType : String) (data : Json) :
    SendResult :=
  if s.closed then ⟨[], some "session closed", s⟩
  else ⟨[⟨s.eventID, eventType, data⟩], none, ⟨s.eventID + 1, s.closed⟩⟩

/-- The lines `sendEvent` prints for one event: the `id:` line, an `event:`
line only for a named event, one `data:` line per newline-separated fragment
of the payload, and a terminating blank line. -/
def frameEvent (e : SSEEvent) : List String :=
  ["id: " ++ toString e.id] ++
  (if e.eventType = "" then [] else ["event: " ++ e.eventType]) ++
  ((e.data.render.splitOn "\n").map (fun l => "data: " ++ l)) ++
  [""]

/-- Model of `SSESession.close`. -/
def closeSession (s : SSESession) : SSESession :=
  ⟨s.eventID, true⟩

/-- The seed of the event counter in `startSSEStream`: a non-empty
`Last-Event-ID` header that parses as an integer `last` seeds `last + 1`,
anything else seeds `0`.  (`Header.Get` returns `""` for an absent
header.) -/
def startEventID (lastEventID : String) : Int :=
  if lastEventID ≠ "" then
    match atoi lastEventID with
    | some n => n + 1
    | none => 0
  else 0

/-- Result of `startSSEStream` on a flushable connection: the session id
echoed to the client, the handshake events already written, and the session
state after the handshake. -/
structure StreamStart where
  sessionID : String
  events : List SSEEvent
  session : SSESession

/-- Model of `HTTPTransport.startSSEStream` (flushable connection): seed the counter
from `Last-Event-ID`, reuse a client `Mcp-Session-Id` or mint a time-derived
one, register the session, and push the synthetic "connected" handshake
event. -/
def startSSEStream (lastEventID mcpSessionID : String) (nowNanos : Nat)
    (timestamp : String) : StreamStart :=
  let sid :=
    if mcpSessionID = "" then "session_" ++ toString nowNanos
    else mcpSessionID
  let s0 : SSESession := ⟨startEventID lastEventID, false⟩
  let r := sendEvent s0 "connected"
    (.obj [("sessionId", .str sid), ("timestamp", .str timestamp)])
  ⟨sid, r.events, r.state⟩

/-- Model of `HTTPTransport.handleSSERequest`: open the stream, dispatch the single
request with an SSE-backed sender, and push the dispatcher's envelope as an
unnamed event.  (On the modelled uncancelled path `HandleRequest` returns no
error, so no extra `sendError` follows.) -/
def handleSSERequest (h : Handlers) (req : Request)
    (lastEventID mcpSessionID : String) (nowNanos : Nat)
    (timestamp : String) : List SSEEvent :=
  let st := startSSEStream lastEventID mcpSessionID nowNanos timestamp
  let send := sendEvent st.session "" (handleRequest h req).toJson
  st.events ++ send.events

/-- Accept negotiation of `handlePost`. -/
def wantsSSE (acceptHeader : String) : Bool :=
  strContains acceptHeader "text/event-stream"

def wantsJSON (acceptHeader : String) : Bool :=
  strContains acceptHeader "application/json"

/-- What `POST /mcp` writes back. -/
inductive PostResult where
  /-- Model of `HTTPTransport.sendError`: status 400 with a JSON-RPC error body. -/
  | badRequest (r : Response)
  /-- Status 204 for a notification. -/
  | noContent
  /-- Status 200 with one JSON-RPC body. -/
  | jsonBody (r : Response)
  /-- The connection upgraded to an SSE stream with these events. -/
  | sse (events : List SSEEvent)

/-- Model of `HTTPTransport.handlePost`: body decode (failure: ParseError with id
`-1`), Accept negotiation, version check, notification short-circuit, then
dispatch through either the SSE session or the direct JSON sender. -/
def handlePost (h : Handlers) (acceptHeader : String) (body : Option Json)
    (lastEventID mcpSessionID : String) (nowNanos : Nat)
    (timestamp decodeErr : String) : PostResult :=
  match body.bind decodeRequest with
  | none =>
      .badRequest
        (mkError (some (.num (-1))) ErrorCodeParseError "Parse error"
          (some (.str decodeErr)))
  | some req =>
      if ¬wantsJSON acceptHeader ∧ ¬wantsSSE acceptHeader then
        .badRequest
          (mkError req.id ErrorCodeInvalidRequest
            "Accept header must include application/json and/or text/event-stream"
            none)
      else if req.jsonrpc ≠ JSONRPCVersion then
        .badRequest
          (mkError req.id ErrorCodeInvalidRequest "Invalid JSON-RPC version"
            none)
      else
        match req.id with
        | none => .noContent
        | some _ =>
            if wantsSSE acceptHeader then
              .sse (handleSSERequest h req lastEventID mcpSessionID nowNanos
                timestamp)
            else
              .jsonBody (handleRequest h req)

/-- The JSON-RPC response payloads a `PostResult` carries: the body of a
JSON reply or error, or the unnamed (non-handshake) events of an SSE
stream. -/
def postResponses : PostResult → List Json
  | .badRequest r => [r.toJson]
  | .noContent => []
  | .jsonBody r => [r.toJson]
  | .sse events => (events.filter (fun e => e.eventType = "")).map SSEEvent.data

/-- The `id` field of a serialized response object. -/
def jsonRespId : Json → Option Json
  | .obj kvs => lookupKey kvs "id"
  | _ => none

/-- A sequence of `sendEvent` calls with unnamed events on one session (the
per-session lock serializes them): the events written and the final session
state. -/
def runSends (s : SSESession) (payloads : List Json) :
    List SSEEvent × SSESession :=
  match payloads with
  | [] => ([], s)
  | d :: rest =>
      let r := sendEvent s "" d
      (r.events ++ (runSends r.state rest).1, (runSends r.state rest).2)

/-- The `n` consecutive integers from `start`. -/
def idsFrom (start : Int) (n : Nat) : List Int :=
  (List.range n).map (fun (k : Nat) => start + (k : Int))

/-- A sequence of dispatches against one server instance (the Go `Server`
and `Coffee` values hold no mutable state, so each dispatch sees the same
handlers). -/
def serverTrace (h : Handlers) (reqs : List Request) : List Response :=
  reqs.map (handleRequest h)

/-- The input line does not decode into a `Request`: either the text is not
valid JSON at all, or `json.Unmarshal` into the struct reports an error. -/
def requestUndecodable : Option Json → Prop
  | none => True
  | some j => decodeRequest j = none

/-! ## Helper lemmas -/

/-- Every dispatcher branch answers with the request's own id. -/
theorem handleRequest_id (h : Handlers) (req : Request) :
    (handleRequest h req).id = req.id := by
  unfold handleRequest
  (repeat' split) <;> rfl

/-- The serialized wire object of a response carries its id under the
`"id"` key (`null` for a nil id). -/
theorem jsonRespId_toJson (r : Response) :
    jsonRespId r.toJson = some (r.id.getD .null) := by
  obtain ⟨jr, i, res, err⟩ := r
  cases res <;> cases err <;> rfl

/-- Dispatching `tools/list` against the coffee handlers always yields the
same success envelope. -/
theorem handleRequest_toolsList (req : Request)
    (hm : req.method = "tools/list") :
    handleRequest coffeeHandlers req =
      mkResponse req.id (.obj [("tools", .arr (coffeeTools.map Tool.toJson))]) := by
  obtain ⟨jr, m, i, p⟩ := req
  simp only at hm
  subst hm
  rfl

/-- Unfolding of `idsFrom` by one step. -/
theorem idsFrom_succ (start : Int) (n : Nat) :
    idsFrom start (n + 1) = start :: idsFrom (start + 1) n := by
  simp only [idsFrom, List.range_succ_eq_map, List.map_cons, List.map_map,
    Nat.cast_zero, add_zero, List.cons.injEq, true_and]
  refine List.map_congr_left ?_
  intro k _
  simp only [Function.comp_apply]
  push_cast
  ring

/-- Ids and final state of a run of unnamed sends on an open session. -/
theorem runSends_ids (payloads : List Json) :
    ∀ s : SSESession, s.closed = false →
      ((runSends s payloads).1.map SSEEvent.id =
        idsFrom s.eventID payloads.length ∧
       (runSends s payloads).2 = ⟨s.eventID + payloads.length, false⟩) := by
  induction payloads with
  | nil =>
      intro s hs
      obtain ⟨e, c⟩ := s
      simp only at hs
      subst hs
      simp [runSends, idsFrom]
  | cons d rest ih =>
      intro s hs
      obtain ⟨e, c⟩ := s
      simp only at hs
      subst hs
      have h' := ih ⟨e + 1, false⟩ rfl
      simp only [runSends, sendEvent, Bool.false_eq_true, if_false,
        List.map_append, h'.1, h'.2, List.length_cons]
      rw [idsFrom_succ]
      constructor
      · rfl
      · simp only [SSESession.mk.injEq, and_true]
        push_cast
        ring

/-- String append is associative (via the underlying character lists). -/
theorem strAppendAssoc (a b c : String) : a ++ (b ++ c) = (a ++ b) ++ c := by
  cases a
  cases b
  cases c
  show String.mk _ = String.mk _
  rw [List.append_assoc]

/-- Dispatching `ping` yields the empty-object success envelope for the
request's id, whatever the handlers. -/
theorem handleRequest_ping (h : Handlers) (req : Request)
    (hm : req.method = "ping") :
    handleRequest h req = ⟨JSONRPCVersion, req.id, some (.obj []), none⟩ := by
  obtain ⟨jr, m, i, p⟩ := req
  simp only at hm
  subst hm
  rfl

/-! ## Claim theorems -/

/-- C1 (counterexample): the claim "for every notification (request with
absent id), no response is ever produced on either transport" is false on
the code: `handlePost` checks the Accept header before the notification
short-circuit, so a well-formed notification posted with `Accept:
text/plain` receives a JSON-RPC error response (id `null`) instead of
silence. -/
theorem C1_counterexample :
    decodeRequest (.obj [("jsonrpc", .str "2.0"), ("method", .str "ping")]) =
      some ⟨"2.0", "ping", none, none⟩ ∧
    postResponses (handlePost coffeeHandlers "text/plain"
      (some (.obj [("jsonrpc", .str "2.0"), ("method", .str "ping")]))
      "" "" 0 "2025-01-01T00:00:00Z" "decode error") =
      [Response.toJson (mkError none ErrorCodeInvalidRequest
        "Accept header must include application/json and/or text/event-stream"
        none)] :=
  ⟨rfl, rfl⟩

/-- C1 (amended): every dispatched request with a non-absent id gets exactly
one response carrying that id, on stdio and on HTTP in both JSON and SSE
mode; a notification that passes transport validation (correct version, and
on HTTP an acceptable Accept header) produces no response on either
transport.  (Per the counterexample, an HTTP notification failing Accept or
version validation does receive a transport-level error response.) -/
theorem C1_theorem :
    (∀ (h : Handlers) (req : Request), (handleRequest h req).id = req.id) ∧
    (∀ (h : Handlers) (j : Json) (req : Request) (e : String) (i : Json),
      decodeRequest j = some req → req.jsonrpc = JSONRPCVersion →
      req.id = some i →
      (stdioHandleMessage h (some j) e).map Response.id = [some i]) ∧
    (∀ (h : Handlers) (j : Json) (req : Request) (e : String),
      decodeRequest j = some req → req.jsonrpc = JSONRPCVersion →
      req.id = none → stdioHandleMessage h (some j) e = []) ∧
    (∀ (h : Handlers) (a : String) (j : Json) (req : Request)
       (lh sh : String) (now : Nat) (ts de : String) (i : Json),
      decodeRequest j = some req → req.jsonrpc = JSONRPCVersion →
      (wantsJSON a = true ∨ wantsSSE a = true) → req.id = some i →
      (postResponses (handlePost h a (some j) lh sh now ts de)).map
        jsonRespId = [some i]) ∧
    (∀ (h : Handlers) (a : String) (j : Json) (req : Request)
       (lh sh : String) (now : Nat) (ts de : String),
      decodeRequest j = some req → req.jsonrpc = JSONRPCVersion →
      (wantsJSON a = true ∨ wantsSSE a = true) → req.id = none →
      handlePost h a (some j) lh sh now ts de = .noContent) := by
  refine ⟨handleRequest_id, ?_, ?_, ?_, ?_⟩
  · intro h j req e i hdec hv hid
    simp only [stdioHandleMessage, Option.some_bind, hdec, hv, JSONRPCVersion,
      ne_eq, not_true_eq_false, if_false, hid, List.map_cons, List.map_nil,
      handleRequest_id]
  · intro h j req e hdec hv hid
    simp only [stdioHandleMessage, Option.some_bind, hdec, hv, JSONRPCVersion,
      ne_eq, not_true_eq_false, if_false, hid]
  · intro h a j req lh sh now ts de i hdec hv hacc hid
    have hna : ¬(¬wantsJSON a ∧ ¬wantsSSE a) := by
      rcases hacc with hj | hs
      · exact fun hc => hc.1 hj
      · exact fun hc => hc.2 hs
    simp only [handlePost, Option.some_bind, hdec, if_neg hna, hv,
      JSONRPCVersion, ne_eq, not_true_eq_false, if_false, hid]
    by_cases hsse : wantsSSE a = true
    · simp [hsse, postResponses, handleSSERequest, startSSEStream, sendEvent,
        jsonRespId_toJson, handleRequest_id, hid]
    · simp [hsse, postResponses, jsonRespId_toJson, handleRequest_id, hid]
  · intro h a j req lh sh now ts de hdec hv hacc hid
    have hna : ¬(¬wantsJSON a ∧ ¬wantsSSE a) := by
      rcases hacc with hj | hs
      · exact fun hc => hc.1 hj
      · exact fun hc => hc.2 hs
    simp only [handlePost, Option.some_bind, hdec, if_neg hna, hv,
      JSONRPCVersion, ne_eq, not_true_eq_false, if_false, hid]

/-- C1 (witness): the amended theorem applied to a concrete `ping` request
with id `7` on stdio, and to a concrete notification on HTTP. -/
theorem C1_witness :
    (stdioHandleMessage coffeeHandlers
      (some (.obj [("jsonrpc", .str "2.0"), ("method", .str "ping"),
        ("id", .num 7)])) "e").map Response.id = [some (.num 7)] ∧
    handlePost coffeeHandlers "application/json"
      (some (.obj [("jsonrpc", .str "2.0"), ("method", .str "ping")]))
      "" "" 0 "ts" "de" = .noContent := by
  constructor
  · exact C1_theorem.2.1 coffeeHandlers _ ⟨"2.0", "ping", some (.num 7), none⟩
      "e" (.num 7) rfl rfl rfl
  · exact C1_theorem.2.2.2.2 coffeeHandlers "application/json" _
      ⟨"2.0", "ping", none, none⟩ "" "" 0 "ts" "de" rfl rfl (Or.inl rfl) rfl

/-- C2: a `ping` request always succeeds with the empty-object result: the
dispatcher answers `ping` with a success envelope whose result is `\x7b\x7d`
for any handlers, that envelope is serialized with `"result":\x7b\x7d`, and
both transports (stdio; HTTP in JSON and in SSE mode) deliver exactly that
envelope. -/
theorem C2_theorem :
    (∀ (h : Handlers) (req : Request), req.method = "ping" →
      handleRequest h req = ⟨JSONRPCVersion, req.id, some (.obj []), none⟩) ∧
    (Json.render (.obj []) = "\x7b\x7d") ∧
    (∀ i : Json,
      Response.render ⟨JSONRPCVersion, some i, some (.obj []), none⟩ =
        "\x7b\"jsonrpc\":\"2.0\",\"id\":" ++ i.render ++
          ",\"result\":\x7b\x7d\x7d") ∧
    (∀ (h : Handlers) (j : Json) (req : Request) (e : String) (i : Json),
      decodeRequest j = some req → req.jsonrpc = JSONRPCVersion →
      req.id = some i → req.method = "ping" →
      stdioHandleMessage h (some j) e =
        [⟨JSONRPCVersion, some i, some (.obj []), none⟩]) ∧
    (∀ (h : Handlers) (a : String) (j : Json) (req : Request)
       (lh sh : String) (now : Nat) (ts de : String) (i : Json),
      decodeRequest j = some req → req.jsonrpc = JSONRPCVersion →
      wantsJSON a = true → wantsSSE a = false → req.id = some i →
      req.method = "ping" →
      handlePost h a (some j) lh sh now ts de =
        .jsonBody ⟨JSONRPCVersion, some i, some (.obj []), none⟩) ∧
    (∀ (h : Handlers) (a : String) (j : Json) (req : Request)
       (lh sh : String) (now : Nat) (ts de : String) (i : Json),
      decodeRequest j = some req → req.jsonrpc = JSONRPCVersion →
      wantsSSE a = true → req.id = some i → req.method = "ping" →
      postResponses (handlePost h a (some j) lh sh now ts de) =
        [Response.toJson ⟨JSONRPCVersion, some i, some (.obj []), none⟩]) := by
  refine ⟨handleRequest_ping, rfl, ?_, ?_, ?_, ?_⟩
  · intro i
    apply congrArg String.mk
    simp only [List.append_assoc, List.cons_append, List.nil_append]
    rfl
  · intro h j req e i hdec hv hid hm
    simp only [stdioHandleMessage, Option.some_bind, hdec, hv, JSONRPCVersion,
      ne_eq, not_true_eq_false, if_false, hid]
    rw [handleRequest_ping h req hm, ← hid]
    rfl
  · intro h a j req lh sh now ts de i hdec hv hj hs hid hm
    have hna : ¬(¬wantsJSON a = true ∧ ¬wantsSSE a = true) := fun hc => hc.1 hj
    simp only [handlePost, Option.some_bind, hdec]
    rw [if_neg hna]
    simp only [hv, JSONRPCVersion, ne_eq, not_true_eq_false, if_false, hid,
      hs, Bool.false_eq_true, if_false]
    rw [handleRequest_ping h req hm, ← hid]
    rfl
  · intro h a j req lh sh now ts de i hdec hv hs hid hm
    have hna : ¬(¬wantsJSON a = true ∧ ¬wantsSSE a = true) := fun hc => hc.2 hs
    simp only [handlePost, Option.some_bind, hdec]
    rw [if_neg hna]
    simp only [hv, JSONRPCVersion, ne_eq, not_true_eq_false, if_false, hid,
      hs, if_true]
    simp [postResponses, handleSSERequest, startSSEStream, sendEvent,
      handleRequest_ping h req hm, hid]
    rfl

/-- C2 (witness): a concrete `ping` with id `1` through the dispatcher, its
exact serialization, and its stdio delivery. -/
theorem C2_witness :
    handleRequest coffeeHandlers ⟨"2.0", "ping", some (.num 1), none⟩ =
      ⟨"2.0", some (.num 1), some (.obj []), none⟩ ∧
    Response.render ⟨"2.0", some (.num 1), some (.obj []), none⟩ =
      "\x7b\"jsonrpc\":\"2.0\",\"id\":1,\"result\":\x7b\x7d\x7d" ∧
    stdioHandleMessage coffeeHandlers
      (some (.obj [("jsonrpc", .str "2.0"), ("method", .str "ping"),
        ("id", .num 1)])) "e" =
      [⟨"2.0", some (.num 1), some (.obj []), none⟩] := by
  refine ⟨C2_theorem.1 coffeeHandlers ⟨"2.0", "ping", some (.num 1), none⟩ rfl,
    (C2_theorem.2.2.1 (.num 1)).trans rfl,
    C2_theorem.2.2.2.1 coffeeHandlers _ ⟨"2.0", "ping", some (.num 1), none⟩
      "e" (.num 1) rfl rfl rfl rfl⟩

/-- C3: within one SSE session the event ids of the handshake and every
subsequent successful `sendEvent` increase strictly by 1; the first id is 0
with no `Last-Event-ID` header and `last + 1` when the header carries the
integer `last`. -/
theorem C3_theorem :
    (∀ (lastID sid : String) (now : Nat) (ts : String)
       (payloads : List Json),
      ((startSSEStream lastID sid now ts).events ++
        (runSends (startSSEStream lastID sid now ts).session payloads).1).map
          SSEEvent.id =
        idsFrom (startEventID lastID) (payloads.length + 1)) ∧
    startEventID "" = 0 ∧
    (∀ (s : String) (last : Int), s ≠ "" → atoi s = some last →
      startEventID s = last + 1) := by
  refine ⟨?_, rfl, ?_⟩
  · intro lastID sid now ts payloads
    have h := runSends_ids payloads ⟨startEventID lastID + 1, false⟩ rfl
    simp only [startSSEStream, sendEvent, Bool.false_eq_true, if_false,
      List.map_append, List.map_cons, List.map_nil, h.1, idsFrom_succ]
    rfl
  · intro s last hne hat
    simp [startEventID, hne, hat]

/-- C3 (witness): resuming with `Last-Event-ID: 41` and sending two payloads
yields event ids 42, 43, 44. -/
theorem C3_witness :
    ((startSSEStream "41" "sess" 0 "ts").events ++
      (runSends (startSSEStream "41" "sess" 0 "ts").session
        [Json.null, Json.num 5]).1).map SSEEvent.id = [42, 43, 44] ∧
    startEventID "41" = 42 := by
  constructor
  · exact (C3_theorem.1 "41" "sess" 0 "ts" [Json.null, Json.num 5]).trans rfl
  · exact (C3_theorem.2.2 "41" 41 (by decide) rfl).trans rfl

/-- C4: a stdio line that does not decode into a `Request` gets exactly one
ParseError (-32700) response whose id is the non-null `id` recovered by
re-parsing the raw text as an object, and `-1` in every other case. -/
theorem C4_theorem :
    (∀ (h : Handlers) (line : Option Json) (e : String),
      requestUndecodable line →
      stdioHandleMessage h line e = [sendParseError line e] ∧
      (sendParseError line e).error =
        some ⟨ErrorCodeParseError, "Parse error", some (.str e)⟩ ∧
      (sendParseError line e).id = some (recoverErrorId line)) ∧
    (∀ (kvs : List (String × Json)) (v : Json),
      lookupKey kvs "id" = some v → v.isNull = false →
      recoverErrorId (some (.obj kvs)) = v) ∧
    (∀ kvs : List (String × Json), lookupKey kvs "id" = none →
      recoverErrorId (some (.obj kvs)) = .num (-1)) ∧
    (∀ kvs : List (String × Json), lookupKey kvs "id" = some .null →
      recoverErrorId (some (.obj kvs)) = .num (-1)) ∧
    (∀ j : Json, j.isObj = false → recoverErrorId (some j) = .num (-1)) ∧
    recoverErrorId none = .num (-1) := by
  refine ⟨?_, ?_, ?_, ?_, ?_, rfl⟩
  · intro h line e hu
    refine ⟨?_, rfl, rfl⟩
    cases line with
    | none => rfl
    | some j =>
        have hj : decodeRequest j = none := hu
        simp [stdioHandleMessage, hj]
  · intro kvs v hl hn
    simp [recoverErrorId, hl, hn]
  · intro kvs hl
    simp [recoverErrorId, hl]
  · intro kvs hl
    simp [recoverErrorId, hl, Json.isNull]
  · intro j hobj
    cases j <;> first
      | rfl
      | simp [Json.isObj] at hobj

/-- C4 (witness): the line `\x7b"id":7,"method":3\x7d` fails to decode (the
method field is not a string) and gets the ParseError response with the
recovered id 7. -/
theorem C4_witness :
    requestUndecodable (some (.obj [("id", .num 7), ("method", .num 3)])) ∧
    stdioHandleMessage coffeeHandlers
      (some (.obj [("id", .num 7), ("method", .num 3)])) "bad json" =
      [⟨"2.0", some (.num 7), none,
        some ⟨-32700, "Parse error", some (.str "bad json")⟩⟩] := by
  refine ⟨rfl, ?_⟩
  exact ((C4_theorem.1 coffeeHandlers
    (some (.obj [("id", .num 7), ("method", .num 3)])) "bad json" rfl).1).trans
    rfl

/-- C5: a domain error from `CallTool`, `ReadResource` or `GetPrompt`
becomes an InvalidParams (-32602) response whose message carries the
handler's message; an error from `ListTools`, `ListResources` or
`ListPrompts` becomes an InternalError (-32603) response. -/
theorem C5_theorem :
    (∀ (h : Handlers) (req : Request) (p : ToolCallParams) (msg : String),
      req.method = "tools/call" → parseToolCallParams req.params = .ok p →
      h.callTool p = .error msg →
      handleRequest h req =
        mkError req.id ErrorCodeInvalidParams ("Tool call failed: " ++ msg)
          none) ∧
    (∀ (h : Handlers) (req : Request) (p : ResourceParams) (msg : String),
      req.method = "resources/read" → parseResourceParams req.params = .ok p →
      h.readResource p = .error msg →
      handleRequest h req =
        mkError req.id ErrorCodeInvalidParams ("Resource read failed: " ++ msg)
          none) ∧
    (∀ (h : Handlers) (req : Request) (p : PromptParams) (msg : String),
      req.method = "prompts/get" → parsePromptParams req.params = .ok p →
      h.getPrompt p = .error msg →
      handleRequest h req =
        mkError req.id ErrorCodeInvalidParams ("Prompt call failed: " ++ msg)
          none) ∧
    (∀ (h : Handlers) (req : Request) (msg : String),
      req.method = "tools/list" → h.listTools = .error msg →
      handleRequest h req =
        mkError req.id ErrorCodeInternalError "Failed to list tools"
          (some (.str msg))) ∧
    (∀ (h : Handlers) (req : Request) (msg : String),
      req.method = "resources/list" → h.listResources = .error msg →
      handleRequest h req =
        mkError req.id ErrorCodeInternalError "Failed to list resources"
          (some (.str msg))) ∧
    (∀ (h : Handlers) (req : Request) (msg : String),
      req.method = "prompts/list" → h.listPrompts = .error msg →
      handleRequest h req =
        mkError req.id ErrorCodeInternalError "Failed to list prompts"
          (some (.str msg))) ∧
    ErrorCodeInvalidParams = -32602 ∧ ErrorCodeInternalError = -32603 := by
  refine ⟨?_, ?_, ?_, ?_, ?_, ?_, rfl, rfl⟩
  · intro h req p msg hm hp hc
    obtain ⟨jr, m, i, pr⟩ := req
    simp only at hm
    subst hm
    simp only [handleRequest, hp, hc]
  · intro h req p msg hm hp hc
    obtain ⟨jr, m, i, pr⟩ := req
    simp only at hm
    subst hm
    simp only [handleRequest, hp, hc]
  · intro h req p msg hm hp hc
    obtain ⟨jr, m, i, pr⟩ := req
    simp only at hm
    subst hm
    simp only [handleRequest, hp, hc]
  · intro h req msg hm hl
    obtain ⟨jr, m, i, pr⟩ := req
    simp only at hm
    subst hm
    simp only [handleRequest, hl]
  · intro h req msg hm hl
    obtain ⟨jr, m, i, pr⟩ := req
    simp only at hm
    subst hm
    simp only [handleRequest, hl]
  · intro h req msg hm hl
    obtain ⟨jr, m, i, pr⟩ := req
    simp only at hm
    subst hm
    simp only [handleRequest, hl]

/-- C5 (witness): `tools/call` with an unknown drink name against the coffee
handlers, and `tools/list` against handlers whose lister fails. -/
theorem C5_witness :
    parseToolCallParams
      (some (.obj [("name", .str "getDrinkInfo"),
        ("arguments", .obj [("name", .str "Tea")])])) =
      .ok ⟨"getDrinkInfo", [("name", .str "Tea")]⟩ ∧
    coffeeHandlers.callTool ⟨"getDrinkInfo", [("name", .str "Tea")]⟩ =
      .error "drink not found: Tea" ∧
    handleRequest coffeeHandlers
      ⟨"2.0", "tools/call", some (.num 2),
        some (.obj [("name", .str "getDrinkInfo"),
          ("arguments", .obj [("name", .str "Tea")])])⟩ =
      mkError (some (.num 2)) ErrorCodeInvalidParams
        "Tool call failed: drink not found: Tea" none ∧
    handleRequest
      ⟨.error "backend down", coffeeCallTool, .ok coffeeResources,
       coffeeReadResource, .ok coffeePrompts, coffeeGetPrompt⟩
      ⟨"2.0", "tools/list", some (.num 3), none⟩ =
      mkError (some (.num 3)) ErrorCodeInternalError "Failed to list tools"
        (some (.str "backend down")) := by
  refine ⟨rfl, rfl, ?_, ?_⟩
  · exact C5_theorem.1 coffeeHandlers
      ⟨"2.0", "tools/call", some (.num 2),
        some (.obj [("name", .str "getDrinkInfo"),
          ("arguments", .obj [("name", .str "Tea")])])⟩
      ⟨"getDrinkInfo", [("name", .str "Tea")]⟩ "drink not found: Tea"
      rfl rfl rfl
  · exact C5_theorem.2.2.2.1
      ⟨.error "backend down", coffeeCallTool, .ok coffeeResources,
       coffeeReadResource, .ok coffeePrompts, coffeeGetPrompt⟩
      ⟨"2.0", "tools/list", some (.num 3), none⟩ "backend down" rfl rfl

/-- C6: once an SSE session is marked closed, `sendEvent` returns the
"session closed" error, writes no event (hence no lines) to the stream, and
leaves the session state - in particular the event counter - unchanged. -/
theorem C6_theorem (s : SSESession) (eventType : String) (d : Json)
    (hc : s.closed = true) :
    sendEvent s eventType d = ⟨[], some "session closed", s⟩ ∧
    ((sendEvent s eventType d).events.map frameEvent).flatten = [] ∧
    (sendEvent s eventType d).state.eventID = s.eventID := by
  refine ⟨?_, ?_, ?_⟩ <;> simp [sendEvent, hc]

/-- C6 (witness): a closed session with counter 5 rejects a write
untouched. -/
theorem C6_witness :
    sendEvent ⟨5, true⟩ "" .null =
      ⟨[], some "session closed", ⟨5, true⟩⟩ :=
  (C6_theorem ⟨5, true⟩ "" .null rfl).1

/-- C7: in any sequence of dispatches against one server instance, any two
`tools/list` responses carry structurally identical tool catalogs (the
fixed coffee catalog). -/
theorem C7_theorem :
    ∀ (reqs : List Request) (i j : Nat) (ri rj : Request),
      reqs[i]? = some ri → reqs[j]? = some rj →
      ri.method = "tools/list" → rj.method = "tools/list" →
      ∃ r1 r2,
        (serverTrace coffeeHandlers reqs)[i]? = some r1 ∧
        (serverTrace coffeeHandlers reqs)[j]? = some r2 ∧
        r1.result = r2.result ∧
        r1.result =
          some (.obj [("tools", .arr (coffeeTools.map Tool.toJson))]) := by
  intro reqs i j ri rj hi hj hmi hmj
  refine ⟨handleRequest coffeeHandlers ri, handleRequest coffeeHandlers rj,
    ?_, ?_, ?_, ?_⟩
  · simp [serverTrace, List.getElem?_map, hi]
  · simp [serverTrace, List.getElem?_map, hj]
  · rw [handleRequest_toolsList ri hmi, handleRequest_toolsList rj hmj]
    rfl
  · rw [handleRequest_toolsList ri hmi]
    rfl

/-- C7 (witness): positions 0 and 2 of a concrete three-request trace. -/
theorem C7_witness :
    ∃ r1 r2,
      (serverTrace coffeeHandlers
        [⟨"2.0", "tools/list", some (.num 1), none⟩,
         ⟨"2.0", "ping", some (.num 9), none⟩,
         ⟨"2.0", "tools/list", some (.str "a"), none⟩])[0]? = some r1 ∧
      (serverTrace coffeeHandlers
        [⟨"2.0", "tools/list", some (.num 1), none⟩,
         ⟨"2.0", "ping", some (.num 9), none⟩,
         ⟨"2.0", "tools/list", some (.str "a"), none⟩])[2]? = some r2 ∧
      r1.result = r2.result ∧
      r1.result =
        some (.obj [("tools", .arr (coffeeTools.map Tool.toJson))]) :=
  C7_theorem
    [⟨"2.0", "tools/list", some (.num 1), none⟩,
     ⟨"2.0", "ping", some (.num 9), none⟩,
     ⟨"2.0", "tools/list", some (.str "a"), none⟩]
    0 2 ⟨"2.0", "tools/list", some (.num 1), none⟩
    ⟨"2.0", "tools/list", some (.str "a"), none⟩ rfl rfl rfl rfl

/-- C8: when the params object holds a string `name` and an `arguments`
field that is present but not an object, both `parseToolCallParams` and
`parsePromptParams` succeed with an empty arguments map, silently discarding
the wrong-typed value. -/
theorem C8_theorem :
    ∀ (kvs : List (String × Json)) (name : String) (v : Json),
      lookupKey kvs "name" = some (.str name) →
      lookupKey kvs "arguments" = some v → v.isObj = false →
      parseToolCallParams (some (.obj kvs)) = .ok ⟨name, []⟩ ∧
      parsePromptParams (some (.obj kvs)) = .ok ⟨name, []⟩ := by
  intro kvs name v hn ha hv
  cases v
  case obj a => exact absurd hv (by simp [Json.isObj])
  all_goals exact
    ⟨by simp [parseToolCallParams, hn, ha],
     by simp [parsePromptParams, hn, ha]⟩

/-- C8 (witness): a string-valued `arguments` field is discarded for both
parsers. -/
theorem C8_witness :
    parseToolCallParams
      (some (.obj [("name", .str "getDrinkNames"),
        ("arguments", .str "oops")])) = .ok ⟨"getDrinkNames", []⟩ ∧
    parsePromptParams
      (some (.obj [("name", .str "getDrinkNames"),
        ("arguments", .str "oops")])) = .ok ⟨"getDrinkNames", []⟩ :=
  C8_theorem [("name", .str "getDrinkNames"), ("arguments", .str "oops")]
    "getDrinkNames" (.str "oops") rfl rfl rfl

/-- C9: `prompts/get` for `drinkDescription` with no string-valued
`drink_name` argument still succeeds, substituting the default subject
"coffee", although the prompt listing declares `drink_name` as required. -/
theorem C9_theorem :
    ∀ args : List (String × Json),
      (∀ s, lookupKey args "drink_name" ≠ some (.str s)) →
      coffeeGetPrompt ⟨"drinkDescription", args⟩ =
        .ok ⟨[⟨"user", ⟨"text", drinkDescriptionText "coffee"⟩⟩]⟩ ∧
      (coffeePrompts.find? (fun p => p.name = "drinkDescription")).map
        (fun p => p.arguments.map (fun a => (a.name, a.required))) =
        some [("drink_name", true)] := by
  intro args hns
  refine ⟨?_, rfl⟩
  simp only [coffeeGetPrompt, createDrinkDescriptionPrompt]

/-- C9 (witness): a numeric `drink_name` falls back to "coffee". -/
theorem C9_witness :
    coffeeGetPrompt ⟨"drinkDescription", [("drink_name", .num 5)]⟩ =
      .ok ⟨[⟨"user", ⟨"text", drinkDescriptionText "coffee"⟩⟩]⟩ ∧
    (coffeePrompts.find? (fun p => p.name = "drinkDescription")).map
      (fun p => p.arguments.map (fun a => (a.name, a.required))) =
      some [("drink_name", true)] :=
  C9_theorem [("drink_name", .num 5)] (fun s h => by simp [lookupKey] at h)

/-- C10: a non-empty `Last-Event-ID` header that does not parse as an
integer is ignored: the stream still opens exactly as with no header, with
the event counter seeded at 0. -/
theorem C10_theorem :
    ∀ (lastID sid : String) (now : Nat) (ts : String),
      lastID ≠ "" → atoi lastID = none →
      startEventID lastID = 0 ∧
      startSSEStream lastID sid now ts = startSSEStream "" sid now ts ∧
      (startSSEStream lastID sid now ts).events.map SSEEvent.id = [0] := by
  intro lastID sid now ts hne hat
  have h0 : startEventID lastID = 0 := by simp [startEventID, hne, hat]
  refine ⟨h0, ?_, ?_⟩
  · simp [startSSEStream, startEventID, hne, hat]
  · simp [startSSEStream, sendEvent, startEventID, hne, hat]

/-- C10 (witness): `Last-Event-ID: 12abc` behaves exactly like an absent
header. -/
theorem C10_witness :
    startEventID "12abc" = 0 ∧
    startSSEStream "12abc" "sid" 7 "ts" = startSSEStream "" "sid" 7 "ts" := by
  have h := C10_theorem "12abc" "sid" 7 "ts" (by decide) rfl
  exact ⟨h.1, h.2.1⟩

end MCPServer
